import Mathlib

/-!
Shallow embedding of `src/custom_components/template_climate/climate.py`
(the `TemplateClimate` entity of the template-climate integration).

Modelling conventions:
* Host-platform collaborators (the entity registry, the script engine, the
  templating engine) are opaque: script configurations are raw data, a script
  run or a delegated base-entity call is recorded as an `Effect` in a trace,
  and the registry is a function from entity id to optionally an entity.
* Python `dict[str, ...]` mappings from the validated configuration are
  ordered association lists (`List (String × _)`), matching insertion-order
  preservation of Python dicts; `list(d.keys())` is `List.map Prod.fst`,
  `k in d` is an existence test on the keys, and dict truthiness is
  non-emptiness.
* Python `Optional` values are `Option`; truthiness of an `Optional[str]` is
  "is `some` of a non-empty string"; truthiness of an object reference (such
  as a `Template` instance) is "is `some _`", since `Template` defines no
  `__bool__`/`__len__`.
* `async` methods are embedded as pure functions returning the (unchanged)
  entity together with the ordered trace of effects they perform; `await`
  sequencing is list append.
-/

namespace TemplateClimateSpec

/-- A validated script configuration (`cv.SCRIPT_SCHEMA`): opaque host data. -/
abbrev ScriptConf := String

/-- `homeassistant.helpers.script.Script` as constructed in `__init__`:
`Script(hass, conf, name, CLIMATE_DOMAIN)`. The engine that runs it is the
host's; the component only stores and invokes it. -/
structure Script where
  conf : ScriptConf
  name : String
  domain : String
deriving DecidableEq, Repr

/-- `homeassistant.helpers.template.Template` as the component stores it:
line 119 builds it from `config.get(CONF_STATE)`, which may be `None`, so the
wrapped source text is an `Option`. -/
structure Template where
  template : Option String
deriving DecidableEq, Repr

/-- The observable surface of a base `ClimateEntity` that `climate.py` reads
or calls: `state`, `hvac_modes`, `preset_modes`, `supported_features`. -/
structure ClimateEntity where
  state : Option String
  hvac_modes : List String
  preset_modes : Option (List String)
  supported_features : Nat
deriving DecidableEq, Repr

/-- The climate-domain entity lookup (`component.get_entity`). -/
abbrev EntityRegistry := String → Option ClimateEntity

/- `ClimateEntityFeature` bit values of the host platform. -/

def FEATURE_TARGET_TEMPERATURE : Nat := 1
def FEATURE_TARGET_HUMIDITY : Nat := 4
def FEATURE_FAN_MODE : Nat := 8
def FEATURE_PRESET_MODE : Nat := 16
def FEATURE_SWING_MODE : Nat := 32
def FEATURE_TURN_OFF : Nat := 128
def FEATURE_TURN_ON : Nat := 256
def FEATURE_SWING_HORIZONTAL_MODE : Nat := 512

/-- Modelled from the spec: `const.py` is not under `src/`; the spec names the
unconditional service actions turn on, turn off, set temperature, set humidity
and toggle, which `climate.py` keys by these constants. Their concrete string
values only need to be distinct. -/
def CONF_TURN_ON_SCRIPT : String := "turn_on"

/-- Modelled from the spec: see `CONF_TURN_ON_SCRIPT`. -/
def CONF_TURN_OFF_SCRIPT : String := "turn_off"

/-- Modelled from the spec: see `CONF_TURN_ON_SCRIPT`. -/
def CONF_SET_TEMPERATURE_SCRIPT : String := "set_temperature"

/-- Modelled from the spec: see `CONF_TURN_ON_SCRIPT`. -/
def CONF_SET_HUMIDITY_SCRIPT : String := "set_humidity"

/-- Modelled from the spec: see `CONF_TURN_ON_SCRIPT`. -/
def CONF_TOGGLE_SCRIPT : String := "toggle"

/-- One entry of `CLIMATE_SCHEMA` after validation: the required temperature
unit, the optional state template text, the optional base entity id, and the
six script mappings (each defaulting to the empty mapping). -/
structure ConfigType where
  temperature_unit : String
  state : Option String
  base_climate_entity_id : Option String
  service_scripts : List (String × ScriptConf) := []
  hvac_mode_scripts : List (String × ScriptConf) := []
  preset_mode_scripts : List (String × ScriptConf) := []
  fan_mode_scripts : List (String × ScriptConf) := []
  swing_mode_scripts : List (String × ScriptConf) := []
  swing_horizontal_mode_scripts : List (String × ScriptConf) := []
  unique_id : Option String := none
deriving DecidableEq, Repr

/-- The fields of a `TemplateClimate` instance that `climate.py` assigns and
reads. `state_template` keeps the source's `Template | None` annotation, and
`_state` is the one mutable field (the stored render of the state template). -/
structure TemplateClimate where
  base_climate_entity_id : Option String
  state_template : Option Template
  _state : Option String
  service_scripts : List (String × Script)
  hvac_mode_scripts : List (String × Script)
  preset_mode_scripts : List (String × Script)
  fan_mode_scripts : List (String × Script)
  swing_mode_scripts : List (String × Script)
  swing_horizontal_mode_scripts : List (String × Script)
deriving DecidableEq, Repr

/-- The dict comprehensions of `__init__`: each configured mapping becomes a
mapping from the same keys to `Script(hass, conf, name, CLIMATE_DOMAIN)`. -/
def mkScripts (name : String) (m : List (String × ScriptConf)) :
    List (String × Script) :=
  m.map (fun p => (p.1, ⟨p.2, name, "climate"⟩))

/-- `TemplateClimate.__init__` (lines 104-160). Note line 119: the state
template is `Template(config.get(CONF_STATE), hass)` — a `Template` instance
is constructed unconditionally, even when `CONF_STATE` is absent, so
`state_template` is always `some _`. -/
def TemplateClimate.init (config : ConfigType) (name : String) : TemplateClimate where
  base_climate_entity_id := config.base_climate_entity_id
  state_template := some ⟨config.state⟩
  _state := none
  service_scripts := mkScripts name config.service_scripts
  hvac_mode_scripts := mkScripts name config.hvac_mode_scripts
  preset_mode_scripts := mkScripts name config.preset_mode_scripts
  fan_mode_scripts := mkScripts name config.fan_mode_scripts
  swing_mode_scripts := mkScripts name config.swing_mode_scripts
  swing_horizontal_mode_scripts := mkScripts name config.swing_horizontal_mode_scripts

/-- The `_base_climate_entity` property (lines 169-175): when the configured
id is truthy (a `some` of a non-empty string), look the entity up in the
climate domain's registry; otherwise `None`. -/
def TemplateClimate.base_climate_entity (e : TemplateClimate)
    (reg : EntityRegistry) : Option ClimateEntity :=
  match e.base_climate_entity_id with
  | some eid => if eid = "" then none else reg eid
  | none => none

/-- The `state` property (lines 241-250). `if self._state_template:` tests the
truthiness of the stored value: a `Template` instance (always the case after
`__init__`) is truthy, so the first branch returns the stored `_state`. -/
def TemplateClimate.state (e : TemplateClimate) (reg : EntityRegistry) :
    Option String :=
  match e.state_template with
  | some _ => e._state
  | none =>
    match e.base_climate_entity reg with
    | some base => base.state
    | none => none

/-- The `hvac_modes` property (lines 252-261): non-empty script mapping wins,
then a resolvable base entity, then the empty list. -/
def TemplateClimate.hvac_modes (e : TemplateClimate) (reg : EntityRegistry) :
    List String :=
  if ¬ e.hvac_mode_scripts.isEmpty then
    e.hvac_mode_scripts.map Prod.fst
  else
    match e.base_climate_entity reg with
    | some base => base.hvac_modes
    | none => []

/-- The `preset_modes` property (lines 263-272): non-empty script mapping
wins, then a resolvable base entity, then `None`. -/
def TemplateClimate.preset_modes (e : TemplateClimate) (reg : EntityRegistry) :
    Option (List String) :=
  if ¬ e.preset_mode_scripts.isEmpty then
    some (e.preset_mode_scripts.map Prod.fst)
  else
    match e.base_climate_entity reg with
    | some base => base.preset_modes
    | none => none

/-- Python's `k in d` on a script mapping. -/
def hasKey {α : Type} (m : List (String × α)) (k : String) : Bool :=
  m.any (fun p => p.1 = k)

/-- Python's `d[k]` guarded by `k in d`: association-list lookup. -/
def lookupKey {α : Type} (m : List (String × α)) (k : String) : Option α :=
  (m.find? (fun p => p.1 = k)).map Prod.snd

/-- The `supported_features` property (lines 214-239): start from 0, OR in the
base entity's features when it resolves, then one flag per present script
group, in source order. -/
def TemplateClimate.supported_features (e : TemplateClimate)
    (reg : EntityRegistry) : Nat :=
  let support0 : Nat := 0
  let support1 :=
    match e.base_climate_entity reg with
    | some base => support0 ||| base.supported_features
    | none => support0
  let support2 :=
    if hasKey e.service_scripts CONF_TURN_ON_SCRIPT then
      support1 ||| FEATURE_TURN_ON
    else support1
  let support3 :=
    if hasKey e.service_scripts CONF_TURN_OFF_SCRIPT then
      support2 ||| FEATURE_TURN_OFF
    else support2
  let support4 :=
    if hasKey e.service_scripts CONF_SET_TEMPERATURE_SCRIPT then
      support3 ||| FEATURE_TARGET_TEMPERATURE
    else support3
  let support5 :=
    if hasKey e.service_scripts CONF_SET_HUMIDITY_SCRIPT then
      support4 ||| FEATURE_TARGET_HUMIDITY
    else support4
  let support6 :=
    if ¬ e.fan_mode_scripts.isEmpty then support5 ||| FEATURE_FAN_MODE
    else support5
  let support7 :=
    if ¬ e.preset_mode_scripts.isEmpty then support6 ||| FEATURE_PRESET_MODE
    else support6
  let support8 :=
    if ¬ e.swing_mode_scripts.isEmpty then support7 ||| FEATURE_SWING_MODE
    else support7
  let support9 :=
    if ¬ e.swing_horizontal_mode_scripts.isEmpty then
      support8 ||| FEATURE_SWING_HORIZONTAL_MODE
    else support8
  support9

/-- The run variables a write action hands to `Script.async_run`:
`async_set_temperature` passes its `kwargs`, `async_set_humidity` passes
`{"humidity": humidity}`, every other action passes no variables. -/
inductive ScriptVars where
  | noVars
  | tempKwargs (kwargs : List (String × String))
  | humidityVar (humidity : Int)
deriving DecidableEq, Repr

/-- A call delegated to the resolved base entity, with its arguments. -/
inductive BaseAction where
  | set_temperature (kwargs : List (String × String))
  | set_humidity (humidity : Int)
  | set_fan_mode (fan_mode : String)
  | set_hvac_mode (hvac_mode : String)
  | set_swing_mode (swing_mode : String)
  | set_swing_horizontal_mode (swing_horizontal_mode : String)
  | set_preset_mode (preset_mode : String)
  | turn_on
  | turn_off
  | toggle
deriving DecidableEq, Repr

/-- One awaited step of a write action: running a configured script (with the
entity's context, which every call passes identically) or forwarding the
action to the resolved base entity. -/
inductive Effect where
  | run_script (script : Script) (vars : ScriptVars)
  | forward_to_base (base : ClimateEntity) (action : BaseAction)
deriving DecidableEq, Repr

/-- `async_set_temperature` (lines 274-282): run the set-temperature service
script with `kwargs` when configured, then forward to the base entity. -/
def TemplateClimate.async_set_temperature (e : TemplateClimate)
    (reg : EntityRegistry) (kwargs : List (String × String)) :
    TemplateClimate × List Effect :=
  (e,
    (match lookupKey e.service_scripts CONF_SET_TEMPERATURE_SCRIPT with
     | some s => [Effect.run_script s (ScriptVars.tempKwargs kwargs)]
     | none => []) ++
    (match e.base_climate_entity reg with
     | some base => [Effect.forward_to_base base (BaseAction.set_temperature kwargs)]
     | none => []))

/-- `async_set_humidity` (lines 284-291). -/
def TemplateClimate.async_set_humidity (e : TemplateClimate)
    (reg : EntityRegistry) (humidity : Int) : TemplateClimate × List Effect :=
  (e,
    (match lookupKey e.service_scripts CONF_SET_HUMIDITY_SCRIPT with
     | some s => [Effect.run_script s (ScriptVars.humidityVar humidity)]
     | none => []) ++
    (match e.base_climate_entity reg with
     | some base => [Effect.forward_to_base base (BaseAction.set_humidity humidity)]
     | none => []))

/-- `async_set_fan_mode` (lines 293-298): run the script keyed by the
requested fan mode when present, then forward the same mode to the base. -/
def TemplateClimate.async_set_fan_mode (e : TemplateClimate)
    (reg : EntityRegistry) (fan_mode : String) : TemplateClimate × List Effect :=
  (e,
    (match lookupKey e.fan_mode_scripts fan_mode with
     | some s => [Effect.run_script s ScriptVars.noVars]
     | none => []) ++
    (match e.base_climate_entity reg with
     | some base => [Effect.forward_to_base base (BaseAction.set_fan_mode fan_mode)]
     | none => []))

/-- `async_set_hvac_mode` (lines 300-305). -/
def TemplateClimate.async_set_hvac_mode (e : TemplateClimate)
    (reg : EntityRegistry) (hvac_mode : String) : TemplateClimate × List Effect :=
  (e,
    (match lookupKey e.hvac_mode_scripts hvac_mode with
     | some s => [Effect.run_script s ScriptVars.noVars]
     | none => []) ++
    (match e.base_climate_entity reg with
     | some base => [Effect.forward_to_base base (BaseAction.set_hvac_mode hvac_mode)]
     | none => []))

/-- `async_set_swing_mode` (lines 307-312). -/
def TemplateClimate.async_set_swing_mode (e : TemplateClimate)
    (reg : EntityRegistry) (swing_mode : String) : TemplateClimate × List Effect :=
  (e,
    (match lookupKey e.swing_mode_scripts swing_mode with
     | some s => [Effect.run_script s ScriptVars.noVars]
     | none => []) ++
    (match e.base_climate_entity reg with
     | some base => [Effect.forward_to_base base (BaseAction.set_swing_mode swing_mode)]
     | none => []))

/-- `async_set_swing_horizontal_mode` (lines 314-323). -/
def TemplateClimate.async_set_swing_horizontal_mode (e : TemplateClimate)
    (reg : EntityRegistry) (swing_horizontal_mode : String) :
    TemplateClimate × List Effect :=
  (e,
    (match lookupKey e.swing_horizontal_mode_scripts swing_horizontal_mode with
     | some s => [Effect.run_script s ScriptVars.noVars]
     | none => []) ++
    (match e.base_climate_entity reg with
     | some base =>
       [Effect.forward_to_base base
         (BaseAction.set_swing_horizontal_mode swing_horizontal_mode)]
     | none => []))

/-- `async_set_preset_mode` (lines 325-332). -/
def TemplateClimate.async_set_preset_mode (e : TemplateClimate)
    (reg : EntityRegistry) (preset_mode : String) :
    TemplateClimate × List Effect :=
  (e,
    (match lookupKey e.preset_mode_scripts preset_mode with
     | some s => [Effect.run_script s ScriptVars.noVars]
     | none => []) ++
    (match e.base_climate_entity reg with
     | some base => [Effect.forward_to_base base (BaseAction.set_preset_mode preset_mode)]
     | none => []))

/-- `async_turn_on` (lines 334-341). -/
def TemplateClimate.async_turn_on (e : TemplateClimate) (reg : EntityRegistry) :
    TemplateClimate × List Effect :=
  (e,
    (match lookupKey e.service_scripts CONF_TURN_ON_SCRIPT with
     | some s => [Effect.run_script s ScriptVars.noVars]
     | none => []) ++
    (match e.base_climate_entity reg with
     | some base => [Effect.forward_to_base base BaseAction.turn_on]
     | none => []))

/-- `async_turn_off` (lines 343-350). -/
def TemplateClimate.async_turn_off (e : TemplateClimate) (reg : EntityRegistry) :
    TemplateClimate × List Effect :=
  (e,
    (match lookupKey e.service_scripts CONF_TURN_OFF_SCRIPT with
     | some s => [Effect.run_script s ScriptVars.noVars]
     | none => []) ++
    (match e.base_climate_entity reg with
     | some base => [Effect.forward_to_base base BaseAction.turn_off]
     | none => []))

/-- `async_toggle` (lines 352-359). -/
def TemplateClimate.async_toggle (e : TemplateClimate) (reg : EntityRegistry) :
    TemplateClimate × List Effect :=
  (e,
    (match lookupKey e.service_scripts CONF_TOGGLE_SCRIPT with
     | some s => [Effect.run_script s ScriptVars.noVars]
     | none => []) ++
    (match e.base_climate_entity reg with
     | some base => [Effect.forward_to_base base BaseAction.toggle]
     | none => []))

/-- What the template tracker delivers to the update callback: a rendered
value, or a `TemplateError` carrying its message. -/
inductive TemplateResult where
  | ok (value : String)
  | error (err : String)
deriving DecidableEq, Repr

/-- An error logged through `_LOGGER.error`. -/
structure LogEntry where
  message : String
deriving DecidableEq, Repr

/-- Python's `str(result)` on the already-`str` render result of lines
186-188: string conversion of a `str` is the identity and cannot raise, so
the `except ValueError` branch of lines 189-191 is unreachable; the `Except`
codomain keeps the source's try/except shape. -/
def str_conv (value : String) : Except Unit String := Except.ok value

/-- The `_update_state` callback (lines 177-191): on a `TemplateError`, log
and clear the stored state; otherwise store the string conversion of the
result (logging and clearing if that conversion raised `ValueError`). The
call to `super()._update_state` touches none of the modelled fields. The
callback is a total function: no exception leaves it. -/
def TemplateClimate.update_state (e : TemplateClimate) (result : TemplateResult) :
    TemplateClimate × List LogEntry :=
  match result with
  | TemplateResult.error err =>
    ({ e with _state := none }, [⟨"Could not render state template: " ++ err⟩])
  | TemplateResult.ok value =>
    match str_conv value with
    | Except.ok s => ({ e with _state := some s }, [])
    | Except.error _ =>
      ({ e with _state := none }, [⟨"Received invalid state"⟩])

/-- The override of `add_template_attribute` (lines 193-212) rebuilds the
tracked template by string concatenation:
`"\x7b% set attribute = \x27" + attribute + "\x27 %\x7d" + template.template`.
When the stored template text is `None` (no `CONF_STATE` configured), that
concatenation raises `TypeError`, so no tracker is ever registered: `none`
models that failure. -/
def add_template_attribute_wrap (attr : String) (t : Template) :
    Option Template :=
  match t.template with
  | some s =>
    some ⟨some ("\x7b% set attribute = \x27" ++ attr ++ "\x27 %\x7d" ++ s)⟩
  | none => none

/-- Whether `async_added_to_hass` (lines 162-167) succeeded in registering the
`_state` tracker, i.e. whether render results can ever be delivered to
`_update_state`. -/
def TemplateClimate.tracking_registered (e : TemplateClimate) : Bool :=
  match e.state_template with
  | some t => (add_template_attribute_wrap "_state" t).isSome
  | none => false

/-- Entity states reachable from `__init__`: the write actions return the
entity unchanged (they assign no field), so the only mutating transition is a
render result delivered to `_update_state`, possible only while the `_state`
tracker is registered. -/
inductive Reachable (config : ConfigType) (name : String) :
    TemplateClimate → Prop where
  | init : Reachable config name (TemplateClimate.init config name)
  | render {e : TemplateClimate} (result : TemplateResult) :
      Reachable config name e → e.tracking_registered = true →
      Reachable config name (e.update_state result).1

/- Concrete fixtures used to evaluate the embedded code on real inputs. -/

/-- A base climate entity with a full observable surface. -/
def baseW : ClimateEntity where
  state := some "heat"
  hvac_modes := ["cool", "dry"]
  preset_modes := some ["away"]
  supported_features := 2

/-- A registry resolving exactly the id `climate.base`. -/
def regW : EntityRegistry := fun eid => if eid = "climate.base" then some baseW else none

/-- A registry resolving nothing. -/
def regEmpty : EntityRegistry := fun _ => none

/-- A configuration with a state template, a base entity and every script
group configured. -/
def cfgBoth : ConfigType where
  temperature_unit := "celsius"
  state := some "\x7b\x7b states.sensor.mode.state \x7d\x7d"
  base_climate_entity_id := some "climate.base"
  service_scripts :=
    [("turn_on", "svc_on"), ("turn_off", "svc_off"),
     ("set_temperature", "svc_temp"), ("set_humidity", "svc_hum"),
     ("toggle", "svc_toggle")]
  hvac_mode_scripts := [("heat", "hvac_heat")]
  preset_mode_scripts := [("eco", "preset_eco")]
  fan_mode_scripts := [("low", "fan_low")]
  swing_mode_scripts := [("on", "swing_on")]
  swing_horizontal_mode_scripts := [("wide", "swing_h_wide")]

/-- The entity built from `cfgBoth`. -/
def entW : TemplateClimate := TemplateClimate.init cfgBoth "clim"

/-- A configuration with a state template but no base entity and no scripts. -/
def cfgMinimal : ConfigType where
  temperature_unit := "celsius"
  state := some "idle"
  base_climate_entity_id := none

/-- A configuration with no base entity and no state template. -/
def cfgBare : ConfigType where
  temperature_unit := "celsius"
  state := none
  base_climate_entity_id := none

/-- A configuration with no state template but a configured base entity. -/
def cfgDelegating : ConfigType where
  temperature_unit := "celsius"
  state := none
  base_climate_entity_id := some "climate.base"

/- Helper lemmas about `__init__`'s script-mapping construction and the
state-update callback. -/

theorem hasKey_mkScripts (name : String) (m : List (String × ScriptConf))
    (k : String) : hasKey (mkScripts name m) k = hasKey m k := by
  induction m with
  | nil => rfl
  | cons a as ih =>
    simp only [hasKey, mkScripts, List.map_cons, List.any_cons] at ih ⊢
    rw [ih]

theorem isEmpty_mkScripts (name : String) (m : List (String × ScriptConf)) :
    (mkScripts name m).isEmpty = m.isEmpty := by
  cases m <;> rfl

theorem map_fst_mkScripts (name : String) (m : List (String × ScriptConf)) :
    (mkScripts name m).map Prod.fst = m.map Prod.fst := by
  simp [mkScripts]

theorem or_accum (c : Prop) [Decidable c] (s f : Nat) :
    (if c then s ||| f else s) = s ||| (if c then f else 0) := by
  split <;> simp

/-- Claim C5: when the state-template render delivers a `TemplateError`, the
update callback sets the stored state to absent and logs an error, and — the
embedded callback being a total function — no exception propagates out of it;
when the render delivers a value, the stored state becomes that value
converted to a string. -/
theorem update_state_failure_clears_and_logs (e : TemplateClimate)
    (err : String) (value : String) :
    e.update_state (TemplateResult.error err) =
      ({ e with _state := none },
       [⟨"Could not render state template: " ++ err⟩]) ∧
    e.update_state (TemplateResult.ok value) =
      ({ e with _state := some value }, []) :=
  ⟨rfl, rfl⟩

/-- Claim C7: calling toggle with no toggle script configured and no base
entity configured performs no effect and returns the entity unchanged; the
embedded call is a total function, so it returns normally and raises no
error. -/
theorem toggle_unconfigured_is_noop (e : TemplateClimate)
    (reg : EntityRegistry)
    (hid : e.base_climate_entity_id = none)
    (hs : lookupKey e.service_scripts CONF_TOGGLE_SCRIPT = none) :
    e.async_toggle reg = (e, []) := by
  simp [TemplateClimate.async_toggle, TemplateClimate.base_climate_entity,
    hid, hs]

/-- Witness for C7 at a concrete configuration with no toggle script and no
base entity. -/
theorem toggle_unconfigured_is_noop_witness :
    (TemplateClimate.init cfgMinimal "mini").async_toggle regEmpty =
      (TemplateClimate.init cfgMinimal "mini", []) :=
  toggle_unconfigured_is_noop (TemplateClimate.init cfgMinimal "mini")
    regEmpty rfl rfl

/-- Claim C9: every write action returns the entity with all of its fields
unchanged (the source methods assign no attribute), and the template-update
callback — the only mutating operation — changes nothing but the stored
`_state`. -/
theorem write_actions_frame (e : TemplateClimate) (reg : EntityRegistry)
    (kwargs : List (String × String)) (humidity : Int) (mode : String)
    (result : TemplateResult) :
    (e.async_set_temperature reg kwargs).1 = e ∧
    (e.async_set_humidity reg humidity).1 = e ∧
    (e.async_set_fan_mode reg mode).1 = e ∧
    (e.async_set_hvac_mode reg mode).1 = e ∧
    (e.async_set_swing_mode reg mode).1 = e ∧
    (e.async_set_swing_horizontal_mode reg mode).1 = e ∧
    (e.async_set_preset_mode reg mode).1 = e ∧
    (e.async_turn_on reg).1 = e ∧
    (e.async_turn_off reg).1 = e ∧
    (e.async_toggle reg).1 = e ∧
    (e.update_state result).1.base_climate_entity_id = e.base_climate_entity_id ∧
    (e.update_state result).1.state_template = e.state_template ∧
    (e.update_state result).1.service_scripts = e.service_scripts ∧
    (e.update_state result).1.hvac_mode_scripts = e.hvac_mode_scripts ∧
    (e.update_state result).1.preset_mode_scripts = e.preset_mode_scripts ∧
    (e.update_state result).1.fan_mode_scripts = e.fan_mode_scripts ∧
    (e.update_state result).1.swing_mode_scripts = e.swing_mode_scripts ∧
    (e.update_state result).1.swing_horizontal_mode_scripts =
      e.swing_horizontal_mode_scripts := by
  cases result <;>
    exact ⟨rfl, rfl, rfl, rfl, rfl, rfl, rfl, rfl, rfl, rfl, rfl, rfl, rfl,
      rfl, rfl, rfl, rfl, rfl⟩

/-- Claim C8: for every configuration with no base entity and no state
template, the `state` property returns absent (`none`) in every reachable
entity state: the stored `_state` starts absent and no render can ever be
delivered, since registering the tracker for an absent template text fails. -/
theorem state_absent_without_base_and_template (config : ConfigType)
    (name : String) (e : TemplateClimate) (reg : EntityRegistry)
    (hstate : config.state = none)
    (_hbase : config.base_climate_entity_id = none)
    (hr : Reachable config name e) :
    e.state reg = none := by
  have hinv : e.state_template = some ⟨config.state⟩ ∧ e._state = none := by
    induction hr with
    | init => exact ⟨rfl, rfl⟩
    | render result hr htrack ih =>
      rcases ih with ⟨ht, _⟩
      rw [hstate] at ht
      simp [TemplateClimate.tracking_registered, ht,
        add_template_attribute_wrap] at htrack
  rcases hinv with ⟨ht, hs⟩
  simp [TemplateClimate.state, ht, hs]

/-- Witness for C8 at a concrete configuration with neither a base entity nor
a state template. -/
theorem state_absent_without_base_and_template_witness :
    (TemplateClimate.init cfgBare "bare").state regEmpty = none :=
  state_absent_without_base_and_template cfgBare "bare"
    (TemplateClimate.init cfgBare "bare") regEmpty rfl rfl Reachable.init

/-- Claim C1 (evaluation at the failing input): with no state template
configured and a resolvable base entity whose state is `"heat"`, the `state`
property returns `none` instead of the base entity's state — line 119
constructs `Template(config.get(CONF_STATE), hass)` unconditionally, so
`self._state_template` is always a truthy `Template` instance and the
property's base-entity branch is unreachable. -/
theorem state_with_absent_template_ignores_resolvable_base :
    (TemplateClimate.init cfgDelegating "deleg").base_climate_entity regW =
      some baseW ∧
    baseW.state = some "heat" ∧
    (TemplateClimate.init cfgDelegating "deleg").state regW = none :=
  ⟨by decide, rfl, rfl⟩

/-- Claim C4: whenever the configured preset-mode script mapping is
non-empty, the `preset_modes` property returns exactly its key set, for every
base-entity configuration and every registry (so regardless of the base
entity's preset list). -/
theorem preset_modes_nonempty_mapping_wins (config : ConfigType)
    (name : String) (reg : EntityRegistry)
    (h : config.preset_mode_scripts ≠ []) :
    (TemplateClimate.init config name).preset_modes reg =
      some (config.preset_mode_scripts.map Prod.fst) := by
  cases hm : config.preset_mode_scripts with
  | nil => exact absurd hm h
  | cons a as =>
    simp [TemplateClimate.preset_modes, TemplateClimate.init, mkScripts, hm]

/-- Witness for C4: a configuration with a non-empty preset mapping and a
base entity advertising a different preset list. -/
theorem preset_modes_nonempty_mapping_wins_witness :
    entW.preset_modes regW = some ["eco"] :=
  preset_modes_nonempty_mapping_wins cfgBoth "clim" regW (by decide)

/-- Claim C6: the `hvac_modes` read path resolves with fixed precedence: a
non-empty HVAC-mode script mapping returns exactly its key set; otherwise a
resolvable base entity's `hvac_modes` is returned; otherwise the empty
list. -/
theorem hvac_modes_read_path_precedence (config : ConfigType) (name : String)
    (reg : EntityRegistry) :
    (config.hvac_mode_scripts ≠ [] →
      (TemplateClimate.init config name).hvac_modes reg =
        config.hvac_mode_scripts.map Prod.fst) ∧
    (config.hvac_mode_scripts = [] →
      ∀ base, (TemplateClimate.init config name).base_climate_entity reg =
          some base →
        (TemplateClimate.init config name).hvac_modes reg = base.hvac_modes) ∧
    (config.hvac_mode_scripts = [] →
      (TemplateClimate.init config name).base_climate_entity reg = none →
      (TemplateClimate.init config name).hvac_modes reg = []) := by
  refine ⟨?_, ?_, ?_⟩
  · intro h
    cases hm : config.hvac_mode_scripts with
    | nil => exact absurd hm h
    | cons a as =>
      simp [TemplateClimate.hvac_modes, TemplateClimate.init, mkScripts, hm]
  · intro h base hb
    simp [TemplateClimate.hvac_modes, TemplateClimate.init, h, mkScripts] at hb ⊢
    simp [hb]
  · intro h hb
    simp [TemplateClimate.hvac_modes, TemplateClimate.init, h, mkScripts] at hb ⊢
    simp [hb]

/-- Claim C10: the two mode-list defaults differ: with no HVAC-mode scripts
and no resolvable base entity `hvac_modes` returns the empty list, while with
no preset-mode scripts and no resolvable base entity `preset_modes` returns
absent (`none`), not an empty list. -/
theorem mode_list_defaults_differ (config : ConfigType) (name : String)
    (reg : EntityRegistry) :
    (config.hvac_mode_scripts = [] →
      (TemplateClimate.init config name).base_climate_entity reg = none →
      (TemplateClimate.init config name).hvac_modes reg = []) ∧
    (config.preset_mode_scripts = [] →
      (TemplateClimate.init config name).base_climate_entity reg = none →
      (TemplateClimate.init config name).preset_modes reg = none) := by
  constructor
  · intro h hb
    simp [TemplateClimate.hvac_modes, TemplateClimate.init, h, mkScripts]
      at hb ⊢
    simp [hb]
  · intro h hb
    simp [TemplateClimate.preset_modes, TemplateClimate.init, h, mkScripts]
      at hb ⊢
    simp [hb]

/-- Claim C2: for every configuration and every current base-entity feature
set, `supported_features` equals the bitwise OR of the resolvable base
entity's advertised features (zero when none resolves) with exactly one flag
per present script group; in particular a configured turn-on service script
always sets the turn-on bit (bit 8), regardless of base-entity features. -/
theorem supported_features_or_of_base_and_scripts (config : ConfigType)
    (name : String) (reg : EntityRegistry) :
    ((TemplateClimate.init config name).supported_features reg =
      (match (TemplateClimate.init config name).base_climate_entity reg with
       | some base => base.supported_features
       | none => 0)
      ||| (if hasKey config.service_scripts CONF_TURN_ON_SCRIPT then
            FEATURE_TURN_ON else 0)
      ||| (if hasKey config.service_scripts CONF_TURN_OFF_SCRIPT then
            FEATURE_TURN_OFF else 0)
      ||| (if hasKey config.service_scripts CONF_SET_TEMPERATURE_SCRIPT then
            FEATURE_TARGET_TEMPERATURE else 0)
      ||| (if hasKey config.service_scripts CONF_SET_HUMIDITY_SCRIPT then
            FEATURE_TARGET_HUMIDITY else 0)
      ||| (if ¬ config.fan_mode_scripts.isEmpty then FEATURE_FAN_MODE else 0)
      ||| (if ¬ config.preset_mode_scripts.isEmpty then
            FEATURE_PRESET_MODE else 0)
      ||| (if ¬ config.swing_mode_scripts.isEmpty then
            FEATURE_SWING_MODE else 0)
      ||| (if ¬ config.swing_horizontal_mode_scripts.isEmpty then
            FEATURE_SWING_HORIZONTAL_MODE else 0)) ∧
    (hasKey config.service_scripts CONF_TURN_ON_SCRIPT = true →
      Nat.testBit ((TemplateClimate.init config name).supported_features reg)
        8 = true) := by
  have key : (TemplateClimate.init config name).supported_features reg =
      (match (TemplateClimate.init config name).base_climate_entity reg with
       | some base => base.supported_features
       | none => 0)
      ||| (if hasKey config.service_scripts CONF_TURN_ON_SCRIPT then
            FEATURE_TURN_ON else 0)
      ||| (if hasKey config.service_scripts CONF_TURN_OFF_SCRIPT then
            FEATURE_TURN_OFF else 0)
      ||| (if hasKey config.service_scripts CONF_SET_TEMPERATURE_SCRIPT then
            FEATURE_TARGET_TEMPERATURE else 0)
      ||| (if hasKey config.service_scripts CONF_SET_HUMIDITY_SCRIPT then
            FEATURE_TARGET_HUMIDITY else 0)
      ||| (if ¬ config.fan_mode_scripts.isEmpty then FEATURE_FAN_MODE else 0)
      ||| (if ¬ config.preset_mode_scripts.isEmpty then
            FEATURE_PRESET_MODE else 0)
      ||| (if ¬ config.swing_mode_scripts.isEmpty then
            FEATURE_SWING_MODE else 0)
      ||| (if ¬ config.swing_horizontal_mode_scripts.isEmpty then
            FEATURE_SWING_HORIZONTAL_MODE else 0) := by
    simp only [TemplateClimate.supported_features]
    rcases hB : (TemplateClimate.init config name).base_climate_entity reg
      with _ | base
    · simp only [hB]
      simp only [TemplateClimate.init, hasKey_mkScripts, isEmpty_mkScripts]
      rw [or_accum, or_accum, or_accum, or_accum, or_accum, or_accum,
        or_accum, or_accum]
    · simp only [hB]
      simp only [TemplateClimate.init, hasKey_mkScripts, isEmpty_mkScripts]
      rw [or_accum, or_accum, or_accum, or_accum, or_accum, or_accum,
        or_accum, or_accum]
      simp only [Nat.zero_or]
  refine ⟨key, ?_⟩
  intro h
  have h256 : Nat.testBit FEATURE_TURN_ON 8 = true := by decide
  rw [key]
  simp [h, Nat.testBit_or, h256]

/-- Claim C3: for every write action, when both an applicable script and a
resolvable base entity are configured, the action's trace is exactly the
script run followed by the forwarded base-entity call, both with the
action's identical arguments: neither effect is skipped, and the script
(awaited first) precedes the delegated call. -/
theorem write_actions_script_then_base (e : TemplateClimate)
    (reg : EntityRegistry) (base : ClimateEntity)
    (hb : e.base_climate_entity reg = some base) :
    (∀ s kwargs,
      lookupKey e.service_scripts CONF_SET_TEMPERATURE_SCRIPT = some s →
      e.async_set_temperature reg kwargs =
        (e, [Effect.run_script s (ScriptVars.tempKwargs kwargs),
             Effect.forward_to_base base (BaseAction.set_temperature kwargs)])) ∧
    (∀ s humidity,
      lookupKey e.service_scripts CONF_SET_HUMIDITY_SCRIPT = some s →
      e.async_set_humidity reg humidity =
        (e, [Effect.run_script s (ScriptVars.humidityVar humidity),
             Effect.forward_to_base base (BaseAction.set_humidity humidity)])) ∧
    (∀ s fan_mode,
      lookupKey e.fan_mode_scripts fan_mode = some s →
      e.async_set_fan_mode reg fan_mode =
        (e, [Effect.run_script s ScriptVars.noVars,
             Effect.forward_to_base base (BaseAction.set_fan_mode fan_mode)])) ∧
    (∀ s hvac_mode,
      lookupKey e.hvac_mode_scripts hvac_mode = some s →
      e.async_set_hvac_mode reg hvac_mode =
        (e, [Effect.run_script s ScriptVars.noVars,
             Effect.forward_to_base base (BaseAction.set_hvac_mode hvac_mode)])) ∧
    (∀ s swing_mode,
      lookupKey e.swing_mode_scripts swing_mode = some s →
      e.async_set_swing_mode reg swing_mode =
        (e, [Effect.run_script s ScriptVars.noVars,
             Effect.forward_to_base base (BaseAction.set_swing_mode swing_mode)])) ∧
    (∀ s swing_horizontal_mode,
      lookupKey e.swing_horizontal_mode_scripts swing_horizontal_mode = some s →
      e.async_set_swing_horizontal_mode reg swing_horizontal_mode =
        (e, [Effect.run_script s ScriptVars.noVars,
             Effect.forward_to_base base
               (BaseAction.set_swing_horizontal_mode swing_horizontal_mode)])) ∧
    (∀ s preset_mode,
      lookupKey e.preset_mode_scripts preset_mode = some s →
      e.async_set_preset_mode reg preset_mode =
        (e, [Effect.run_script s ScriptVars.noVars,
             Effect.forward_to_base base (BaseAction.set_preset_mode preset_mode)])) ∧
    (∀ s, lookupKey e.service_scripts CONF_TURN_ON_SCRIPT = some s →
      e.async_turn_on reg =
        (e, [Effect.run_script s ScriptVars.noVars,
             Effect.forward_to_base base BaseAction.turn_on])) ∧
    (∀ s, lookupKey e.service_scripts CONF_TURN_OFF_SCRIPT = some s →
      e.async_turn_off reg =
        (e, [Effect.run_script s ScriptVars.noVars,
             Effect.forward_to_base base BaseAction.turn_off])) ∧
    (∀ s, lookupKey e.service_scripts CONF_TOGGLE_SCRIPT = some s →
      e.async_toggle reg =
        (e, [Effect.run_script s ScriptVars.noVars,
             Effect.forward_to_base base BaseAction.toggle])) := by
  refine ⟨?_, ?_, ?_, ?_, ?_, ?_, ?_, ?_, ?_, ?_⟩
  · intro s kwargs h
    simp [TemplateClimate.async_set_temperature, h, hb]
  · intro s humidity h
    simp [TemplateClimate.async_set_humidity, h, hb]
  · intro s fan_mode h
    simp [TemplateClimate.async_set_fan_mode, h, hb]
  · intro s hvac_mode h
    simp [TemplateClimate.async_set_hvac_mode, h, hb]
  · intro s swing_mode h
    simp [TemplateClimate.async_set_swing_mode, h, hb]
  · intro s swing_horizontal_mode h
    simp [TemplateClimate.async_set_swing_horizontal_mode, h, hb]
  · intro s preset_mode h
    simp [TemplateClimate.async_set_preset_mode, h, hb]
  · intro s h
    simp [TemplateClimate.async_turn_on, h, hb]
  · intro s h
    simp [TemplateClimate.async_turn_off, h, hb]
  · intro s h
    simp [TemplateClimate.async_toggle, h, hb]

/-- Witness for C3: the claim's own example — a fan-mode script for `"low"`
and a resolvable base entity; `set_fan_mode("low")` runs the script and then
forwards `"low"` to the base. -/
theorem write_actions_script_then_base_witness :
    entW.async_set_fan_mode regW "low" =
      (entW,
       [Effect.run_script ⟨"fan_low", "clim", "climate"⟩ ScriptVars.noVars,
        Effect.forward_to_base baseW (BaseAction.set_fan_mode "low")]) :=
  (write_actions_script_then_base entW regW baseW (by decide)).2.2.1
    ⟨"fan_low", "clim", "climate"⟩ "low" (by decide)

end TemplateClimateSpec
